import Mathlib

/-!
# Verification of the `run-tests` harness

A shallow embedding of `src/run-tests/direct_stdout.py` (the `DirectStdout`
output switch) and `src/run-tests/run_tests.py` (the test harness), with
theorems settling the specification's claims about them.

Modelling conventions:
* `io.StringIO` buffers live in a heap `bufs : Nat → String` addressed by an
  allocation counter `nBufs`; object identity of a buffer is its index.
* `sys.stdout` is `Option Nat`: `none` is the original console stream
  (`cls.original_stdout`, a live `io.TextIOWrapper`), `some i` is buffer `i`.
* Python exceptions that escape a `DirectStdout` call (AssertionError,
  KeyError, TypeError) are `Except` errors carrying the mutated class state,
  since CPython leaves the class attributes as they were at the raise point.
* `isinstance(cls.original_stdout, io.TextIOWrapper)` assertions are
  environment facts (the console object never changes) and hold trivially in
  the model, so they are not reified.
-/

/-- ANSI escape `bcolors.RED`. -/
def RED : String := "\x1b[91m"

/-- ANSI escape `bcolors.GREEN`. -/
def GREEN : String := "\x1b[92m"

/-- ANSI escape `bcolors.END`. -/
def ENDC : String := "\x1b[0m"

/-- Python `str.rjust(w)`: left-pad with spaces to width `w`. -/
def rjust (w : Nat) (s : String) : String :=
  String.mk (List.replicate (w - s.length) ' ') ++ s

/-- Python truthiness of an optional string: `None` and `""` are falsy. -/
def pyTruthy : Option String → Bool
  | none => false
  | some s => !(s == "")

/-- Exceptions that can escape a `DirectStdout` method. -/
inductive Err
  | assertionError
  | keyError
  | typeError
  deriving Repr, DecidableEq

/-- The class state of `DirectStdout` plus the ambient `sys.stdout` routing
and the text that has reached the real console. -/
structure DS where
  /-- Contents of every allocated `io.StringIO`, addressed by index. -/
  bufs : Nat → String
  /-- Allocation counter: indices `< nBufs` are allocated. -/
  nBufs : Nat
  /-- `cls.redir`: index of the current redirect buffer. -/
  redir : Nat
  /-- `cls.saved_streams`: insertion-ordered dict, name to buffer index. -/
  saved_streams : List (String × Nat)
  /-- `cls.is_switched`. -/
  is_switched : Bool
  /-- `sys.stdout`: `none` = the console (`cls.original_stdout`), `some i` =
  buffer `i`. -/
  sysStdout : Option Nat
  /-- Everything written to the real console so far. -/
  console : String

/-- Process start: one fresh empty redirect buffer, stdout at the console. -/
def DS.init : DS :=
  { bufs := fun _ => ""
    nBufs := 1
    redir := 0
    saved_streams := []
    is_switched := false
    sysStdout := none
    console := "" }

/-- A write through `sys.stdout` (e.g. `print`): appends to the console or to
the buffer `sys.stdout` currently points at. -/
def writeStdout (s : String) (st : DS) : DS :=
  match st.sysStdout with
  | none => { st with console := st.console ++ s }
  | some i => { st with bufs := Function.update st.bufs i (st.bufs i ++ s) }

/-- `DirectStdout._renew_stream`: `cls.redir = io.StringIO()`, and when
switched, `sys.stdout = cls.redir`. -/
def renewStream (st : DS) : DS :=
  let newId := st.nBufs
  let st' := { st with
    bufs := Function.update st.bufs newId ""
    nBufs := st.nBufs + 1
    redir := newId }
  if st'.is_switched then { st' with sysStdout := some newId } else st'

/-- Python dict assignment `d[k] = v`: overwrite in place or append. -/
def dictInsert (k : String) (v : Nat) : List (String × Nat) → List (String × Nat)
  | [] => [(k, v)]
  | (k', v') :: rest =>
    if k' = k then (k, v) :: rest else (k', v') :: dictInsert k v rest

/-- Python dict `d.pop(k)`: the value and the remaining dict, or `none`. -/
def dictPop (k : String) : List (String × Nat) → Option (Nat × List (String × Nat))
  | [] => none
  | (k', v) :: rest =>
    if k' = k then some (v, rest)
    else match dictPop k rest with
      | none => none
      | some (v', rest') => some (v', (k', v) :: rest')

/-- `DirectStdout.save_stream(name)`: `cls.saved_streams[name] = cls.redir`
then `cls._renew_stream()`. -/
def save_stream (name : String) (st : DS) : DS :=
  renewStream { st with saved_streams := dictInsert name st.redir st.saved_streams }

/-- `DirectStdout._flush_stream(stream_name)`. `if stream_name:` is Python
truthiness, so `None` and `""` both select the current redirect buffer. The
named branch is `cls.saved_streams.pop(stream_name)` (KeyError when absent);
the current branch reads `cls.redir` and renews it. -/
def flushStream (streamName : Option String) (st : DS) :
    Except (Err × DS) (String × DS) :=
  if pyTruthy streamName then
    match dictPop (streamName.getD "") st.saved_streams with
    | none => .error (.keyError, st)
    | some (i, rest) => .ok (st.bufs i, { st with saved_streams := rest })
  else
    .ok (st.bufs st.redir, renewStream st)

/-- `DirectStdout.read_stream(stream_name)`: returns `_flush_stream`. -/
def read_stream (streamName : Option String) (st : DS) :
    Except (Err × DS) (String × DS) :=
  flushStream streamName st

/-- `DirectStdout.print_stream(stream_name)`: runs
`cls.original_stdout.write(cls._flush_stream(stream_name), end='')`.
`io.TextIOWrapper.write` accepts no `end` keyword, so after the flush has
already run the call raises `TypeError` and nothing reaches the console. -/
def print_stream (streamName : Option String) (st : DS) :
    Except (Err × DS) (Unit × DS) :=
  match flushStream streamName st with
  | .error e => .error e
  | .ok (_, st') => .error (.typeError, st')

/-- What `switch_stdout` returns: the `read_stream` contents, or the new
`sys.stdout` (`none` = the console object, `some i` = buffer `i`). -/
inductive SwitchRet
  | str (s : String)
  | stream (t : Option Nat)
  deriving Repr, DecidableEq

/-- `DirectStdout.switch_stdout(print_stream, read_stream, save_stream_as,
flush_stream)`, translated branch by branch from the source. While switched:
the asserts (`isinstance(sys.stdout, io.StringIO)`, `cls.redir == sys.stdout`,
`1 >= sum([...])`), then stdout is restored to the console, `is_switched`
cleared, and the one truthy mode among save > print > read > flush is
honored. While un-switched: the assert `cls.original_stdout == sys.stdout`,
then stdout is pointed at `cls.redir` — the mode arguments are not consulted
on this path. -/
def switch_stdout (p r : Bool) (nm : Option String) (f : Bool) (st : DS) :
    Except (Err × DS) (SwitchRet × DS) :=
  if st.is_switched then
    if st.sysStdout.isSome then
      if st.sysStdout = some st.redir then
        if (if p then 1 else 0) + (if r then 1 else 0)
            + (if nm.isSome then 1 else 0) ≤ 1 then
          let st1 : DS := { st with sysStdout := none, is_switched := false }
          if pyTruthy nm then
            let st2 := save_stream (nm.getD "") st1
            .ok (.stream st2.sysStdout, st2)
          else if p then
            match print_stream none st1 with
            | .error e => .error e
            | .ok (_, st2) => .ok (.stream st2.sysStdout, st2)
          else if r then
            match read_stream none st1 with
            | .error e => .error e
            | .ok (content, st2) => .ok (.str content, st2)
          else if f then
            match flushStream none st1 with
            | .error e => .error e
            | .ok (_, st2) => .ok (.stream st2.sysStdout, st2)
          else .ok (.stream st1.sysStdout, st1)
        else .error (.assertionError, st)
      else .error (.assertionError, st)
    else .error (.assertionError, st)
  else
    if st.sysStdout = none then
      .ok (.stream (some st.redir),
           { st with sysStdout := some st.redir, is_switched := true })
    else .error (.assertionError, st)

/-- The harness call `stdout.switch()` (no mode arguments). -/
def switchPlain (st : DS) : Except (Err × DS) (SwitchRet × DS) :=
  switch_stdout false false none false st

/-- The harness call `stdout.switch(read_stream=True)`. -/
def switchRead (st : DS) : Except (Err × DS) (SwitchRet × DS) :=
  switch_stdout false true none false st

/-- The harness call `stdout.switch(flush_stream=True)`. -/
def switchFlush (st : DS) : Except (Err × DS) (SwitchRet × DS) :=
  switch_stdout false false none true st

/-- The call `switch(save_stream_as=x)`. -/
def switchSave (x : String) (st : DS) : Except (Err × DS) (SwitchRet × DS) :=
  switch_stdout false false (some x) false st

/-! ## The test harness (`run_tests.py`) -/

/-- The Python standard library collaborator
`traceback.format_exception(type(exc), exc, exc.__traceback__)`: a list of
strings — the `"Traceback (most recent call last):\n"` header, one string per
traceback frame (outermost first), then the exception line. -/
def pyFormatException (frames : List String) (excLine : String) : List String :=
  "Traceback (most recent call last):\n" :: frames ++ [excLine]

/-- Line 90 of `run_tests.py`:
`tb = traceback.format_exception(type(exc), exc, exc.__traceback__)[2:]`. -/
def harnessTraceback (frames : List String) (excLine : String) : List String :=
  (pyFormatException frames excLine).drop 2

/-- Modelled from the spec's words, for comparison with `harnessTraceback`:
"the exception's traceback with exactly the outermost two frames removed",
followed by the exception line. -/
def specTraceback (frames : List String) (excLine : String) : List String :=
  frames.drop 2 ++ [excLine]

/-- `format_failed_test_printout(test, exc, captured_stdout, locals)`. The
exception is represented by its traceback frames and its formatted exception
line; the `locals` parameter of the source is unused there (a TODO) and is
omitted. `if captured_stdout:` is string truthiness; `[:-1]` drops the last
character. -/
def format_failed_test_printout (test : String) (frames : List String)
    (excLine : String) (captured_stdout : String) : String :=
  let tb := harnessTraceback frames excLine
  let failed_test :=
    "\n" ++ RED ++ "FAILED TEST" ++ ENDC ++ ": " ++ test ++ "\n"
      ++ String.join tb
  let failed_test :=
    if captured_stdout ≠ "" then
      failed_test ++ "  Captured stdout calls:\n" ++ captured_stdout
    else failed_test
  if failed_test.endsWith "\n" then failed_test.dropRight 1 else failed_test

/-- `format_test_result(test, max_text_len, success)`. In the source
`num_dots = max_text_len - len(test)` is a Python int and `'.' * num_dots`
with `num_dots <= 0` is `""`; the guard `num_dots > 1` makes the Nat
truncated subtraction agree with the Python int on every input. -/
def format_test_result (test : String) (max_text_len : Nat)
    (success : Bool := true) : String :=
  let num_dots := max_text_len - test.length
  let dots := if num_dots > 1 then String.mk (List.replicate num_dots '.') else ""
  if success then dots ++ "..." ++ GREEN ++ "success" ++ ENDC
  else dots ++ "......" ++ RED ++ "FAIL" ++ ENDC

/-- A discovered test unit: its attribute name, what its body writes to
`sys.stdout` when invoked, and — when it raises — the formatted exception
line together with the formatted traceback frames of the body below the
harness's own invocation frame. `raises = none` means the body returns. -/
structure TestUnit where
  name : String
  output : String
  raises : Option String
  bodyFrames : List String
  deriving Repr, DecidableEq

/-- The formatted frame contributed by the harness's own
`getattr(test_class, test)()` call, the outermost frame of every exception
it catches. -/
def harnessFrame : String :=
  "  File \"run_tests.py\", line 214, in run_tests_in\n    getattr(test_class, test)()\n"

/-- `TestResults.__init__`. -/
structure TestResults where
  testcount : Nat
  failcount : Nat
  failed_tests : List String
  deriving Repr, DecidableEq

/-- `TestResults.print_test_summary`, as the text it sends to `print`
(each `print` call appends a newline). The success figure is the Python int
`self.testcount - self.failcount`. -/
def print_test_summary (res : TestResults) : String :=
  "\n"
    ++ "Testing complete. Out of " ++ toString res.testcount ++ " tests:\n"
    ++ GREEN ++ rjust 5 (toString ((res.testcount : Int) - (res.failcount : Int)))
    ++ ENDC ++ " succeeded\n"
    ++ RED ++ rjust 5 (toString res.failcount) ++ ENDC ++ " failed\n"
    ++ String.join (res.failed_tests.map (fun t => t ++ "\n"))

/-- Outcome of the body of `run_tests_in` on a list of units: it returns, or
a test exception propagates via `raise e` (`raise_on_err`), or a
harness-level Python exception escapes (`fatal`). -/
inductive StepResult
  | ok (res : TestResults) (st : DS)
  | raised (e : String) (res : TestResults) (st : DS)
  | fatal (er : Err) (st : DS)

/-- The FailureRecord string the harness builds for unit `u` raising `e`
after a capture that saw exactly `u.output`. -/
def failureRecordOf (u : TestUnit) (e : String) : String :=
  format_failed_test_printout u.name (harnessFrame :: u.bodyFrames) e u.output

/-- One iteration of the loop in `run_tests_in` (lines 209-231):
count the test, print the progress prefix, `stdout.switch()`, invoke the
unit; on success `stdout.switch(flush_stream=True)` and print the success
suffix; on exception `stdout.switch(read_stream=True)`, build and append the
failure printout, print the FAIL suffix, count the failure, and re-raise
when `raise_on_err`. (`get_local_variables()` is best-effort introspection
whose result the formatting ignores.) -/
def runOneTest (max_text_len : Nat) (raise_on_err : Bool) (u : TestUnit)
    (res : TestResults) (st : DS) : StepResult :=
  let res := { res with testcount := res.testcount + 1 }
  let st := writeStdout ("  running " ++ u.name) st
  match switchPlain st with
  | .error (er, st') => .fatal er st'
  | .ok (_, st) =>
    let st := writeStdout u.output st
    match u.raises with
    | none =>
      match switchFlush st with
      | .error (er, st') => .fatal er st'
      | .ok (_, st) =>
        let st := writeStdout (format_test_result u.name max_text_len true ++ "\n") st
        .ok res st
    | some e =>
      match switchRead st with
      | .error (er, st') => .fatal er st'
      | .ok (ret, st) =>
        let captured := match ret with | .str s => s | .stream _ => ""
        let failed_test :=
          format_failed_test_printout u.name (harnessFrame :: u.bodyFrames) e captured
        let res := { res with failed_tests := res.failed_tests ++ [failed_test] }
        let st := writeStdout (format_test_result u.name max_text_len false ++ "\n") st
        let res := { res with failcount := res.failcount + 1 }
        if raise_on_err then .raised e res st else .ok res st

/-- The `for test in tests` loop of `run_tests_in`, stopping when a test
exception or a harness exception propagates. -/
def runLoop (max_text_len : Nat) (raise_on_err : Bool) :
    List TestUnit → TestResults → DS → StepResult
  | [], res, st => .ok res st
  | u :: rest, res, st =>
    match runOneTest max_text_len raise_on_err u res st with
    | .ok res' st' => runLoop max_text_len raise_on_err rest res' st'
    | other => other

/-- Character-list prefix test, kernel-reducible. -/
def charsPrefix : List Char → List Char → Bool
  | [], _ => true
  | _ :: _, [] => false
  | c :: cs, d :: ds => c == d && charsPrefix cs ds

/-- Python `s.startswith(pre)`. Written over the character lists (rather
than byte positions) so that concrete instances evaluate by reduction. -/
def pyStartsWith (s pre : String) : Bool := charsPrefix pre.data s.data

/-- The discovery filter of `run_tests_in`: attributes whose name starts
with `test_`, restricted to `tests_to_run` when that tuple is non-empty. -/
def discover (tests_to_run : List String) (units : List TestUnit) : List TestUnit :=
  let tests := units.filter (fun u => pyStartsWith u.name "test_")
  if tests_to_run.isEmpty then tests
  else tests.filter (fun u => tests_to_run.contains u.name)

/-- `run_tests_in(test_class_name, test_class, test_results, tests_to_run,
raise_on_err)`: print the gathering header, discover, compute
`max_text_len = max(map(len, tests))` (only used when `tests` is non-empty),
and run the loop. The host object is represented by the units its reflection
enumerates. -/
def run_tests_in (test_class_name : String) (units : List TestUnit)
    (test_results : TestResults) (tests_to_run : List String)
    (raise_on_err : Bool) (st : DS) : StepResult :=
  let st := writeStdout ("\nGathering tests for " ++ test_class_name ++ ":\n") st
  let tests := discover tests_to_run units
  let max_text_len := (tests.map (fun u => u.name.length)).foldl Nat.max 0
  runLoop max_text_len raise_on_err tests test_results st

/-- A module as seen by the harness's reflection: its name, its module-level
attributes (run first), and its class attributes with the units each class
instance exposes. -/
structure PyModule where
  name : String
  units : List TestUnit
  testClasses : List (String × List TestUnit)

/-- The `for cls in test_classes` loop of `run_tests`. -/
def runClasses (mod_name : String) (tests_to_run : List String)
    (raise_on_err : Bool) :
    List (String × List TestUnit) → TestResults → DS → StepResult
  | [], res, st => .ok res st
  | (cname, cunits) :: rest, res, st =>
    match run_tests_in (mod_name ++ "." ++ cname) cunits res tests_to_run
        raise_on_err st with
    | .ok res' st' => runClasses mod_name tests_to_run raise_on_err rest res' st'
    | other => other

/-- Outcome of a whole `run_tests` call. -/
inductive RunResult
  | finished (res : TestResults) (st : DS)
  | raised (e : String) (res : TestResults) (st : DS)
  | fatal (er : Err) (st : DS)

/-- `run_tests(raise_on_err, *tests_to_run)`: fresh `TestResults`, the
module-level units, then every class attribute whose name starts with
`Test`, then `print_test_summary` — which is reached only when no exception
propagated out of the loops. -/
def run_tests (raise_on_err : Bool) (tests_to_run : List String) (m : PyModule)
    (st : DS) : RunResult :=
  let results : TestResults := ⟨0, 0, []⟩
  match run_tests_in m.name m.units results tests_to_run raise_on_err st with
  | .fatal er st' => .fatal er st'
  | .raised e res st' => .raised e res st'
  | .ok res st' =>
    match runClasses m.name tests_to_run raise_on_err
        (m.testClasses.filter (fun c => pyStartsWith c.1 "Test")) res st' with
    | .fatal er st'' => .fatal er st''
    | .raised e res' st'' => .raised e res' st''
    | .ok res' st'' => .finished res' (writeStdout (print_test_summary res') st'')

/-- All units a `run_tests` call discovers, in execution order. -/
def discoveredUnits (tests_to_run : List String) (m : PyModule) : List TestUnit :=
  discover tests_to_run m.units ++
    ((m.testClasses.filter (fun c => pyStartsWith c.1 "Test")).map
      (fun c => discover tests_to_run c.2)).flatten

/-- The harness's between-tests resting state: un-diverted, stdout at the
console, and the current redirect buffer freshly allocated and empty. -/
def Good (st : DS) : Prop :=
  st.is_switched = false ∧ st.sysStdout = none ∧ st.bufs st.redir = ""
    ∧ st.redir < st.nBufs

instance (st : DS) : Decidable (Good st) := by unfold Good; infer_instance

/-- The routing invariant of the output switch: `sys.stdout` is the active
redirect buffer exactly when `is_switched`, and the console otherwise. -/
def RouteInv (st : DS) : Prop :=
  st.sysStdout = if st.is_switched then some st.redir else none

instance (st : DS) : Decidable (RouteInv st) := by unfold RouteInv; infer_instance

/-! ## Step lemmas for the output switch -/

/-- An un-diverted `switch()` call enters capture, routing stdout to the
current redirect buffer. -/
theorem switchPlain_enter (st : DS) (h1 : st.is_switched = false)
    (h2 : st.sysStdout = none) :
    switchPlain st = .ok (.stream (some st.redir),
      { st with sysStdout := some st.redir, is_switched := true }) := by
  simp [switchPlain, switch_stdout, h1, h2]

/-- A diverted `switch()` call with no mode arguments exits to the console,
leaving the redirect buffer untouched. -/
theorem switchPlain_exit (st : DS) (hs : st.is_switched = true)
    (ho : st.sysStdout = some st.redir) :
    switchPlain st = .ok (.stream none,
      { st with sysStdout := none, is_switched := false }) := by
  simp [switchPlain, switch_stdout, hs, ho, pyTruthy]

/-- A diverted `switch(read_stream=True)` returns the buffer contents and
renews the buffer. -/
theorem switchRead_exit (st : DS) (hs : st.is_switched = true)
    (ho : st.sysStdout = some st.redir) :
    switchRead st = .ok (.str (st.bufs st.redir),
      { st with
          sysStdout := none, is_switched := false,
          bufs := Function.update st.bufs st.nBufs "",
          nBufs := st.nBufs + 1, redir := st.nBufs }) := by
  simp [switchRead, switch_stdout, hs, ho, pyTruthy, read_stream, flushStream,
    renewStream]

/-- A diverted `switch(flush_stream=True)` discards the buffer contents and
renews the buffer. -/
theorem switchFlush_exit (st : DS) (hs : st.is_switched = true)
    (ho : st.sysStdout = some st.redir) :
    switchFlush st = .ok (.stream none,
      { st with
          sysStdout := none, is_switched := false,
          bufs := Function.update st.bufs st.nBufs "",
          nBufs := st.nBufs + 1, redir := st.nBufs }) := by
  simp [switchFlush, switch_stdout, hs, ho, pyTruthy, flushStream, renewStream]

/-- A diverted `switch(save_stream_as=x)` with non-empty `x` stores the
buffer under `x` and renews the buffer. -/
theorem switchSave_exit (x : String) (hx : x ≠ "") (st : DS)
    (hs : st.is_switched = true) (ho : st.sysStdout = some st.redir) :
    switchSave x st = .ok (.stream none,
      { st with
          sysStdout := none, is_switched := false,
          saved_streams := dictInsert x st.redir st.saved_streams,
          bufs := Function.update st.bufs st.nBufs "",
          nBufs := st.nBufs + 1, redir := st.nBufs }) := by
  simp [switchSave, switch_stdout, hs, ho, pyTruthy, hx, save_stream,
    renewStream]

/-- A write while diverted to the active buffer appends to that buffer. -/
theorem writeStdout_diverted (s : String) (st : DS)
    (ho : st.sysStdout = some st.redir) :
    writeStdout s st =
      { st with bufs := Function.update st.bufs st.redir (st.bufs st.redir ++ s) } := by
  simp [writeStdout, ho]

/-- A write while un-diverted goes to the console. -/
theorem writeStdout_console (s : String) (st : DS) (ho : st.sysStdout = none) :
    writeStdout s st = { st with console := st.console ++ s } := by
  simp [writeStdout, ho]

/-- Console writes preserve the harness resting state. -/
theorem good_write_console (s : String) (st : DS) (hg : Good st) :
    Good (writeStdout s st) := by
  obtain ⟨h1, h2, h3, h4⟩ := hg
  simp [writeStdout, h2, Good, h1, h3, h4]

/-- The switch-and-buffer state after one unit has been executed from a
resting state: progress line and result line on the console, the unit's
output left in the retired buffer, a fresh empty redirect buffer. -/
def afterUnit (line : String) (u : TestUnit) (st : DS) : DS :=
  { st with
    console := st.console ++ ("  running " ++ u.name) ++ (line ++ "\n"),
    bufs := Function.update
      (Function.update st.bufs st.redir (st.bufs st.redir ++ u.output))
      st.nBufs "",
    nBufs := st.nBufs + 1, redir := st.nBufs }

/-- Executing one unit returns the harness to its resting state. -/
theorem good_afterUnit (line : String) (u : TestUnit) (st : DS) (hg : Good st) :
    Good (afterUnit line u st) := by
  obtain ⟨h1, h2, h3, h4⟩ := hg
  simp [afterUnit, Good, h1, h2]

/-- A unit whose body returns: the loop body counts it, prints
`...success`, and leaves the failure data untouched. -/
theorem runOneTest_pass (len : Nat) (ro : Bool) (u : TestUnit) (res : TestResults)
    (st : DS) (hg : Good st) (hr : u.raises = none) :
    runOneTest len ro u res st =
      .ok ⟨res.testcount + 1, res.failcount, res.failed_tests⟩
        (afterUnit (format_test_result u.name len true) u st) := by
  obtain ⟨h1, h2, h3, h4⟩ := hg
  simp [runOneTest, afterUnit, writeStdout, switchPlain, switch_stdout,
    switchFlush, flushStream, renewStream, pyTruthy, h1, h2, hr]

/-- A unit whose body raises, with `raise_on_err` false: the loop body
counts it, records exactly one failure printout built from the captured
output, prints `...FAIL`, and continues. -/
theorem runOneTest_fail_continue (len : Nat) (u : TestUnit) (res : TestResults)
    (st : DS) (hg : Good st) (e : String) (hr : u.raises = some e) :
    runOneTest len false u res st =
      .ok ⟨res.testcount + 1, res.failcount + 1,
           res.failed_tests ++ [failureRecordOf u e]⟩
        (afterUnit (format_test_result u.name len false) u st) := by
  obtain ⟨h1, h2, h3, h4⟩ := hg
  simp [runOneTest, afterUnit, writeStdout, switchPlain, switch_stdout,
    switchRead, read_stream, flushStream, renewStream, pyTruthy, h1, h2, h3,
    hr, failureRecordOf]

/-- A unit whose body raises, with `raise_on_err` true: the loop body
records the failure exactly as in accumulate mode and then re-raises the
original exception. -/
theorem runOneTest_fail_raise (len : Nat) (u : TestUnit) (res : TestResults)
    (st : DS) (hg : Good st) (e : String) (hr : u.raises = some e) :
    runOneTest len true u res st =
      .raised e ⟨res.testcount + 1, res.failcount + 1,
           res.failed_tests ++ [failureRecordOf u e]⟩
        (afterUnit (format_test_result u.name len false) u st) := by
  obtain ⟨h1, h2, h3, h4⟩ := hg
  simp [runOneTest, afterUnit, writeStdout, switchPlain, switch_stdout,
    switchRead, read_stream, flushStream, renewStream, pyTruthy, h1, h2, h3,
    hr, failureRecordOf]

/-- The loop distributes over list append, stopping early on a raise. -/
theorem runLoop_append (len : Nat) (ro : Bool) (a b : List TestUnit)
    (res : TestResults) (st : DS) :
    runLoop len ro (a ++ b) res st =
      match runLoop len ro a res st with
      | .ok res' st' => runLoop len ro b res' st'
      | other => other := by
  induction a generalizing res st with
  | nil => simp [runLoop]
  | cons u rest ih =>
    simp only [List.cons_append, runLoop]
    cases runOneTest len ro u res st with
    | ok res' st' => simp [ih]
    | raised e res' st' => simp
    | fatal er st' => simp

/-- With no raising unit the loop, in either mode, counts every unit and
touches neither `failcount` nor `failed_tests`. -/
theorem runLoop_all_pass (len : Nat) (ro : Bool) (units : List TestUnit)
    (res : TestResults) (st : DS) (hg : Good st)
    (h : ∀ u ∈ units, u.raises = none) :
    ∃ st', runLoop len ro units res st =
      .ok ⟨res.testcount + units.length, res.failcount, res.failed_tests⟩ st'
      ∧ Good st' := by
  induction units generalizing res st with
  | nil => exact ⟨st, by simp [runLoop], hg⟩
  | cons u rest ih =>
    have hu : u.raises = none := h u (by simp)
    obtain ⟨st', heq, hg'⟩ := ih ⟨res.testcount + 1, res.failcount, res.failed_tests⟩
      (afterUnit (format_test_result u.name len true) u st)
      (good_afterUnit _ u st hg) (fun v hv => h v (by simp [hv]))
    refine ⟨st', ?_, hg'⟩
    simp only [runLoop, runOneTest_pass len ro u res st hg hu, heq]
    simp [Nat.add_comm, Nat.add_assoc, Nat.add_left_comm]

/-- In accumulate mode (`raise_on_err=false`) the loop always runs to the
end: every unit is counted, the number of failures recorded equals the
number of raising units, and the failure printouts are exactly one per
raising unit, in execution order. -/
theorem runLoop_accumulate (len : Nat) (units : List TestUnit)
    (res : TestResults) (st : DS) (hg : Good st) :
    ∃ st', runLoop len false units res st =
      .ok ⟨res.testcount + units.length,
           res.failcount + (units.filter (fun u => u.raises.isSome)).length,
           res.failed_tests ++ units.filterMap
             (fun u => u.raises.map (fun e => failureRecordOf u e))⟩ st'
      ∧ Good st' := by
  induction units generalizing res st with
  | nil => exact ⟨st, by simp [runLoop], hg⟩
  | cons u rest ih =>
    cases hu : u.raises with
    | none =>
      obtain ⟨st', heq, hg'⟩ := ih ⟨res.testcount + 1, res.failcount, res.failed_tests⟩
        (afterUnit (format_test_result u.name len true) u st)
        (good_afterUnit _ u st hg)
      refine ⟨st', ?_, hg'⟩
      simp only [runLoop, runOneTest_pass len false u res st hg hu, heq]
      simp [hu, Nat.add_comm, Nat.add_assoc, Nat.add_left_comm]
    | some e =>
      obtain ⟨st', heq, hg'⟩ := ih ⟨res.testcount + 1, res.failcount + 1,
          res.failed_tests ++ [failureRecordOf u e]⟩
        (afterUnit (format_test_result u.name len false) u st)
        (good_afterUnit _ u st hg)
      refine ⟨st', ?_, hg'⟩
      simp only [runLoop, runOneTest_fail_continue len u res st hg e hu, heq]
      simp [hu, Nat.add_comm, Nat.add_assoc, Nat.add_left_comm]

/-- `run_tests_in` over a host with no raising discovered unit. -/
theorem run_tests_in_all_pass (name : String) (units : List TestUnit)
    (res : TestResults) (ttr : List String) (ro : Bool) (st : DS) (hg : Good st)
    (h : ∀ u ∈ discover ttr units, u.raises = none) :
    ∃ st', run_tests_in name units res ttr ro st =
      .ok ⟨res.testcount + (discover ttr units).length, res.failcount,
           res.failed_tests⟩ st' ∧ Good st' := by
  unfold run_tests_in
  exact runLoop_all_pass _ ro _ res _ (good_write_console _ st hg) h

/-- `run_tests_in` in accumulate mode: counts every discovered unit and
records exactly the raising ones. -/
theorem run_tests_in_accumulate (name : String) (units : List TestUnit)
    (res : TestResults) (ttr : List String) (st : DS) (hg : Good st) :
    ∃ st', run_tests_in name units res ttr false st =
      .ok ⟨res.testcount + (discover ttr units).length,
           res.failcount
             + ((discover ttr units).filter (fun u => u.raises.isSome)).length,
           res.failed_tests ++ (discover ttr units).filterMap
             (fun u => u.raises.map (fun e => failureRecordOf u e))⟩ st'
      ∧ Good st' := by
  unfold run_tests_in
  exact runLoop_accumulate _ _ res _ (good_write_console _ st hg)

/-- The class loop of `run_tests` when no discovered class unit raises. -/
theorem runClasses_all_pass (mod : String) (ttr : List String) (ro : Bool)
    (classes : List (String × List TestUnit)) (res : TestResults) (st : DS)
    (hg : Good st)
    (h : ∀ c ∈ classes, ∀ u ∈ discover ttr c.2, u.raises = none) :
    ∃ st', runClasses mod ttr ro classes res st =
      .ok ⟨res.testcount + ((classes.map (fun c => discover ttr c.2)).flatten).length,
           res.failcount, res.failed_tests⟩ st' ∧ Good st' := by
  induction classes generalizing res st with
  | nil => exact ⟨st, by simp [runClasses], hg⟩
  | cons c rest ih =>
    obtain ⟨cname, cunits⟩ := c
    obtain ⟨st1, he1, hg1⟩ := run_tests_in_all_pass (mod ++ "." ++ cname) cunits
      res ttr ro st hg (h (cname, cunits) (by simp))
    obtain ⟨st2, he2, hg2⟩ := ih ⟨res.testcount + (discover ttr cunits).length,
        res.failcount, res.failed_tests⟩ st1 hg1
      (fun d hd u hu => h d (by simp [hd]) u hu)
    refine ⟨st2, ?_, hg2⟩
    simp only [runClasses, he1, he2]
    simp only [List.map_cons, List.flatten_cons, List.length_append,
      Nat.add_assoc]

/-- The class loop of `run_tests` in accumulate mode. -/
theorem runClasses_accumulate (mod : String) (ttr : List String)
    (classes : List (String × List TestUnit)) (res : TestResults) (st : DS)
    (hg : Good st) :
    ∃ st', runClasses mod ttr false classes res st =
      .ok ⟨res.testcount + ((classes.map (fun c => discover ttr c.2)).flatten).length,
           res.failcount + (((classes.map (fun c => discover ttr c.2)).flatten).filter
             (fun u => u.raises.isSome)).length,
           res.failed_tests ++ ((classes.map (fun c => discover ttr c.2)).flatten).filterMap
             (fun u => u.raises.map (fun e => failureRecordOf u e))⟩ st'
      ∧ Good st' := by
  induction classes generalizing res st with
  | nil => exact ⟨st, by simp [runClasses], hg⟩
  | cons c rest ih =>
    obtain ⟨cname, cunits⟩ := c
    obtain ⟨st1, he1, hg1⟩ := run_tests_in_accumulate (mod ++ "." ++ cname) cunits
      res ttr st hg
    obtain ⟨st2, he2, hg2⟩ := ih ⟨res.testcount + (discover ttr cunits).length,
        res.failcount
          + ((discover ttr cunits).filter (fun u => u.raises.isSome)).length,
        res.failed_tests ++ (discover ttr cunits).filterMap
          (fun u => u.raises.map (fun e => failureRecordOf u e))⟩ st1 hg1
    refine ⟨st2, ?_, hg2⟩
    simp only [runClasses, he1, he2]
    simp only [List.map_cons, List.flatten_cons, List.length_append,
      List.filter_append, List.filterMap_append, List.append_assoc,
      Nat.add_assoc]

/-- `toString` of a `Nat` cast to `Int` is `toString` of the `Nat`. -/
theorem toString_intCast_nat (n : Nat) : toString ((n : Int)) = toString n := rfl

/-- Joining no strings gives the empty string. -/
theorem string_join_nil : String.join [] = "" := rfl

/-- `toString 0 = "0"`. -/
theorem toString_nat_zero : toString (0 : Nat) = "0" := rfl

/-- The summary printed for a run with `n` tests and no failures. -/
theorem print_test_summary_no_fail (n : Nat) :
    print_test_summary ⟨n, 0, []⟩ =
      "\nTesting complete. Out of " ++ toString n ++ " tests:\n"
        ++ GREEN ++ rjust 5 (toString n) ++ ENDC ++ " succeeded\n"
        ++ RED ++ rjust 5 "0" ++ ENDC ++ " failed\n" := by
  simp [print_test_summary, toString_intCast_nat, string_join_nil,
    toString_nat_zero]

/-- In fail-fast mode the loop over `pre ++ bad :: post`, with `pre` all
passing and `bad` raising `e`, re-raises `e` right after recording `bad`'s
failure; the units of `post` are never started. -/
theorem runLoop_fail_fast (len : Nat) (pre post : List TestUnit) (bad : TestUnit)
    (e : String) (res : TestResults) (st : DS) (hg : Good st)
    (hpre : ∀ u ∈ pre, u.raises = none) (hbad : bad.raises = some e) :
    ∃ st', runLoop len true (pre ++ bad :: post) res st =
      .raised e ⟨res.testcount + pre.length + 1, res.failcount + 1,
                 res.failed_tests ++ [failureRecordOf bad e]⟩ st' := by
  obtain ⟨st1, he1, hg1⟩ := runLoop_all_pass len true pre res st hg hpre
  refine ⟨afterUnit (format_test_result bad.name len false) bad st1, ?_⟩
  rw [runLoop_append, he1]
  simp only [runLoop, runOneTest_fail_raise len bad _ st1 hg1 e hbad]

/-- C1: for every sequence of N discovered test units none of which raises,
running the harness leaves `testcount = N` and `failcount = 0`, and the
printed summary (appended to the console) reports `testcount - failcount = N`
succeeded and `0` failed. -/
theorem c1_zero_failures_counts_and_summary (m : PyModule) (ttr : List String)
    (ro : Bool) (st : DS) (hg : Good st)
    (h : ∀ u ∈ discoveredUnits ttr m, u.raises = none) :
    ∃ res st', run_tests ro ttr m st = .finished res st' ∧
      res.testcount = (discoveredUnits ttr m).length ∧
      res.failcount = 0 ∧ res.failed_tests = [] ∧
      (∃ pre, st'.console = pre ++ print_test_summary res) ∧
      print_test_summary res =
        "\nTesting complete. Out of " ++ toString res.testcount ++ " tests:\n"
          ++ GREEN ++ rjust 5 (toString res.testcount) ++ ENDC ++ " succeeded\n"
          ++ RED ++ rjust 5 "0" ++ ENDC ++ " failed\n" := by
  have hm : ∀ u ∈ discover ttr m.units, u.raises = none := fun u hu =>
    h u (List.mem_append.mpr (Or.inl hu))
  have hc : ∀ c ∈ m.testClasses.filter (fun c => pyStartsWith c.1 "Test"),
      ∀ u ∈ discover ttr c.2, u.raises = none := fun c hcm u hu =>
    h u (List.mem_append.mpr (Or.inr
      (List.mem_flatten.mpr ⟨discover ttr c.2, List.mem_map_of_mem _ hcm, hu⟩)))
  obtain ⟨st1, he1, hg1⟩ := run_tests_in_all_pass m.name m.units ⟨0, 0, []⟩
    ttr ro st hg hm
  simp only [Nat.zero_add] at he1
  obtain ⟨st2, he2, hg2⟩ := runClasses_all_pass m.name ttr ro
    (m.testClasses.filter (fun c => pyStartsWith c.1 "Test"))
    ⟨(discover ttr m.units).length, 0, []⟩ st1 hg1 hc
  refine ⟨⟨(discover ttr m.units).length
      + ((m.testClasses.filter (fun c => pyStartsWith c.1 "Test")).map
          (fun c => discover ttr c.2)).flatten.length, 0, []⟩,
    writeStdout (print_test_summary ⟨(discover ttr m.units).length
      + ((m.testClasses.filter (fun c => pyStartsWith c.1 "Test")).map
          (fun c => discover ttr c.2)).flatten.length, 0, []⟩) st2,
    ?_, ?_, rfl, rfl, ?_, ?_⟩
  · simp only [run_tests, he1, he2]
  · simp [discoveredUnits]
  · exact ⟨st2.console, congrArg DS.console (writeStdout_console _ st2 hg2.2.1)⟩
  · exact print_test_summary_no_fail _

/-- C2: with `raise_on_err=false`, the run completes, every discovered unit
is counted, `failcount` equals the number of raising units, and the failure
records are exactly one per raising unit, in execution order — no
duplicates, no omissions, wherever the raising units fall. -/
theorem c2_accumulate_exact_failures (m : PyModule) (ttr : List String)
    (st : DS) (hg : Good st) :
    ∃ res st', run_tests false ttr m st = .finished res st' ∧
      res.testcount = (discoveredUnits ttr m).length ∧
      res.failcount
        = ((discoveredUnits ttr m).filter (fun u => u.raises.isSome)).length ∧
      res.failed_tests = (discoveredUnits ttr m).filterMap
        (fun u => u.raises.map (fun e => failureRecordOf u e)) := by
  obtain ⟨st1, he1, hg1⟩ := run_tests_in_accumulate m.name m.units ⟨0, 0, []⟩
    ttr st hg
  simp only [Nat.zero_add, List.nil_append] at he1
  obtain ⟨st2, he2, hg2⟩ := runClasses_accumulate m.name ttr
    (m.testClasses.filter (fun c => pyStartsWith c.1 "Test"))
    ⟨(discover ttr m.units).length,
     ((discover ttr m.units).filter (fun u => u.raises.isSome)).length,
     (discover ttr m.units).filterMap
       (fun u => u.raises.map (fun e => failureRecordOf u e))⟩ st1 hg1
  refine ⟨⟨(discover ttr m.units).length
      + ((m.testClasses.filter (fun c => pyStartsWith c.1 "Test")).map
          (fun c => discover ttr c.2)).flatten.length,
    ((discover ttr m.units).filter (fun u => u.raises.isSome)).length
      + (((m.testClasses.filter (fun c => pyStartsWith c.1 "Test")).map
          (fun c => discover ttr c.2)).flatten.filter
            (fun u => u.raises.isSome)).length,
    (discover ttr m.units).filterMap
        (fun u => u.raises.map (fun e => failureRecordOf u e))
      ++ ((m.testClasses.filter (fun c => pyStartsWith c.1 "Test")).map
          (fun c => discover ttr c.2)).flatten.filterMap
            (fun u => u.raises.map (fun e => failureRecordOf u e))⟩,
    writeStdout (print_test_summary ⟨(discover ttr m.units).length
      + ((m.testClasses.filter (fun c => pyStartsWith c.1 "Test")).map
          (fun c => discover ttr c.2)).flatten.length,
    ((discover ttr m.units).filter (fun u => u.raises.isSome)).length
      + (((m.testClasses.filter (fun c => pyStartsWith c.1 "Test")).map
          (fun c => discover ttr c.2)).flatten.filter
            (fun u => u.raises.isSome)).length,
    (discover ttr m.units).filterMap
        (fun u => u.raises.map (fun e => failureRecordOf u e))
      ++ ((m.testClasses.filter (fun c => pyStartsWith c.1 "Test")).map
          (fun c => discover ttr c.2)).flatten.filterMap
            (fun u => u.raises.map (fun e => failureRecordOf u e))⟩) st2,
    ?_, ?_, ?_, ?_⟩
  · simp only [run_tests, he1, he2]
  · simp [discoveredUnits]
  · simp [discoveredUnits, List.filter_append]
  · simp [discoveredUnits, List.filterMap_append]

/-- Splitting `A ++ B = pre ++ bad :: post`: the distinguished element falls
either inside `A` or inside `B`. -/
theorem splitAppendCons {α : Type} (A B pre post : List α) (bad : α)
    (h : A ++ B = pre ++ bad :: post) :
    (∃ post₁, A = pre ++ bad :: post₁ ∧ post = post₁ ++ B) ∨
    (∃ pre₂, pre = A ++ pre₂ ∧ B = pre₂ ++ bad :: post) := by
  rcases List.append_eq_append_iff.mp h with ⟨a', h1, h2⟩ | ⟨c', h1, h2⟩
  · exact Or.inr ⟨a', h1, h2⟩
  · cases c' with
    | nil => exact Or.inr ⟨[], by simpa using h1.symm, by simpa using h2.symm⟩
    | cons x xs =>
      rw [List.cons_append] at h2
      injection h2 with hx hpost
      exact Or.inl ⟨xs, by rw [h1, hx], hpost⟩

/-- Fail-fast `run_tests_in` when the discovered units are
`pre ++ bad :: post` with `pre` all passing and `bad` raising. -/
theorem run_tests_in_fail_fast (name : String) (units : List TestUnit)
    (res : TestResults) (ttr : List String) (st : DS) (hg : Good st)
    (pre post : List TestUnit) (bad : TestUnit) (e : String)
    (hd : discover ttr units = pre ++ bad :: post)
    (hpre : ∀ u ∈ pre, u.raises = none) (hbad : bad.raises = some e) :
    ∃ st', run_tests_in name units res ttr true st =
      .raised e ⟨res.testcount + pre.length + 1, res.failcount + 1,
                 res.failed_tests ++ [failureRecordOf bad e]⟩ st' := by
  simp only [run_tests_in, hd]
  exact runLoop_fail_fast _ pre post bad e res _
    (good_write_console _ st hg) hpre hbad

/-- Fail-fast class loop: when the flattened discovered class units are
`pre ++ bad :: post` with `pre` all passing and `bad` raising, the loop
re-raises after recording exactly `bad`'s failure. -/
theorem runClasses_fail_fast (mod : String) (ttr : List String)
    (classes : List (String × List TestUnit)) (res : TestResults) (st : DS)
    (hg : Good st) (pre post : List TestUnit) (bad : TestUnit) (e : String)
    (hd : (classes.map (fun c => discover ttr c.2)).flatten = pre ++ bad :: post)
    (hpre : ∀ u ∈ pre, u.raises = none) (hbad : bad.raises = some e) :
    ∃ st', runClasses mod ttr true classes res st =
      .raised e ⟨res.testcount + pre.length + 1, res.failcount + 1,
                 res.failed_tests ++ [failureRecordOf bad e]⟩ st' := by
  induction classes generalizing res st pre post with
  | nil => simp at hd
  | cons c rest ih =>
    obtain ⟨cname, cunits⟩ := c
    rw [List.map_cons, List.flatten_cons] at hd
    rcases splitAppendCons _ _ _ _ _ hd with ⟨post₁, hA, hpost⟩ | ⟨pre₂, hp2, hB⟩
    · obtain ⟨st', he⟩ := run_tests_in_fail_fast (mod ++ "." ++ cname) cunits
        res ttr st hg pre post₁ bad e hA hpre hbad
      exact ⟨st', by simp only [runClasses, he]⟩
    · have hAp : ∀ u ∈ discover ttr cunits, u.raises = none := fun u hu =>
        hpre u (hp2 ▸ List.mem_append.mpr (Or.inl hu))
      obtain ⟨st1, he1, hg1⟩ := run_tests_in_all_pass (mod ++ "." ++ cname)
        cunits res ttr true st hg hAp
      have hpre₂ : ∀ u ∈ pre₂, u.raises = none := fun u hu =>
        hpre u (hp2 ▸ List.mem_append.mpr (Or.inr hu))
      obtain ⟨st', he⟩ := ih ⟨res.testcount + (discover ttr cunits).length,
        res.failcount, res.failed_tests⟩ st1 hg1 pre₂ post hB hpre₂
      refine ⟨st', ?_⟩
      simp only [runClasses, he1, he]
      simp [hp2, List.length_append, Nat.add_assoc]

/-- C3: with `raise_on_err=true`, when the discovered units — module-level
and class units together, in discovery order — are `pre ++ bad :: post`
with `pre` all passing and `bad` the first raiser, raising `e`, the run
propagates `e` to the caller with `bad`'s failure already recorded; only
`pre.length + 1` units were ever started (nothing in `post`, wherever it
lives, is invoked), and the result is `raised`, the branch of `run_tests`
that never reaches `print_test_summary`. -/
theorem c3_fail_fast_propagates (m : PyModule) (ttr : List String) (st : DS)
    (pre post : List TestUnit) (bad : TestUnit) (e : String) (hg : Good st)
    (hd : discoveredUnits ttr m = pre ++ bad :: post)
    (hpre : ∀ u ∈ pre, u.raises = none) (hbad : bad.raises = some e) :
    ∃ res st', run_tests true ttr m st = .raised e res st' ∧
      res.testcount = pre.length + 1 ∧ res.failcount = 1 ∧
      res.failed_tests = [failureRecordOf bad e] := by
  unfold discoveredUnits at hd
  rcases splitAppendCons _ _ _ _ _ hd with ⟨post₁, hA, hpost⟩ | ⟨pre₂, hp2, hB⟩
  · obtain ⟨st', he⟩ := run_tests_in_fail_fast m.name m.units ⟨0, 0, []⟩ ttr
      st hg pre post₁ bad e hA hpre hbad
    refine ⟨⟨0 + pre.length + 1, 0 + 1, [] ++ [failureRecordOf bad e]⟩, st',
      ?_, by simp, by simp, by simp⟩
    simp only [run_tests, he]
  · have hAp : ∀ u ∈ discover ttr m.units, u.raises = none := fun u hu =>
      hpre u (hp2 ▸ List.mem_append.mpr (Or.inl hu))
    obtain ⟨st1, he1, hg1⟩ := run_tests_in_all_pass m.name m.units ⟨0, 0, []⟩
      ttr true st hg hAp
    simp only [Nat.zero_add] at he1
    have hpre₂ : ∀ u ∈ pre₂, u.raises = none := fun u hu =>
      hpre u (hp2 ▸ List.mem_append.mpr (Or.inr hu))
    obtain ⟨st', he⟩ := runClasses_fail_fast m.name ttr
      (m.testClasses.filter (fun c => pyStartsWith c.1 "Test"))
      ⟨(discover ttr m.units).length, 0, []⟩ st1 hg1 pre₂ post bad e hB hpre₂
      hbad
    refine ⟨⟨(discover ttr m.units).length + pre₂.length + 1, 0 + 1,
      [] ++ [failureRecordOf bad e]⟩, st', ?_, ?_, by simp, by simp⟩
    · simp only [run_tests, he1, he]
    · simp [hp2]

def InvAfter {α : Type} : Except (Err × DS) (α × DS) → Prop
  | .ok (_, st) => RouteInv st
  | .error (_, st) => RouteInv st

theorem routeInv_renew (st : DS) (h : RouteInv st) : RouteInv (renewStream st) := by
  unfold RouteInv renewStream at *
  by_cases hs : st.is_switched <;> simp [hs] at h ⊢ <;> simp [h]

theorem routeInv_save (st : DS) (name : String) (h : RouteInv st) :
    RouteInv (save_stream name st) :=
  routeInv_renew _ h

theorem invAfter_flush (snm : Option String) (st : DS) (h : RouteInv st) :
    InvAfter (flushStream snm st) := by
  unfold flushStream
  by_cases ht : pyTruthy snm
  · simp only [ht, if_true]
    cases hp : dictPop (snm.getD "") st.saved_streams with
    | none => simpa [InvAfter] using h
    | some pr => exact h
  · simp only [ht, if_false, Bool.false_eq_true]
    exact routeInv_renew st h

theorem invAfter_print (snm : Option String) (st : DS) (h : RouteInv st) :
    InvAfter (print_stream snm st) := by
  unfold print_stream
  have hfl := invAfter_flush snm st h
  cases hf : flushStream snm st with
  | error e => rw [hf] at hfl; obtain ⟨er, st'⟩ := e; simpa [InvAfter] using hfl
  | ok v => rw [hf] at hfl; obtain ⟨c, st'⟩ := v; simpa [InvAfter] using hfl

theorem invAfter_switch (p r f : Bool) (nm : Option String) (st : DS)
    (h : RouteInv st) : InvAfter (switch_stdout p r nm f st) := by
  unfold switch_stdout
  by_cases hs : st.is_switched
  · have ho : st.sysStdout = some st.redir := by
      unfold RouteInv at h; simpa [hs] using h
    have hmid : RouteInv { st with sysStdout := none, is_switched := false } := by
      unfold RouteInv; simp
    simp only [hs, ho, if_true, Option.isSome_some, ite_true]
    by_cases hsum : (if p then 1 else 0) + (if r then 1 else 0)
        + (if nm.isSome then 1 else 0) ≤ 1
    · simp only [hsum, if_true]
      by_cases htr : pyTruthy nm
      · simp only [htr, if_true]
        exact routeInv_save _ _ hmid
      · simp only [htr, Bool.false_eq_true, if_false]
        by_cases hp : p
        · simp only [hp, if_true]
          have := invAfter_print none _ hmid
          cases hpr : print_stream none { st with sysStdout := none, is_switched := false } with
          | error e => rw [hpr] at this; obtain ⟨er, st'⟩ := e; simpa [InvAfter] using this
          | ok v => rw [hpr] at this; obtain ⟨c, st'⟩ := v; simpa [InvAfter] using this
        · simp only [hp, if_false]
          by_cases hr : r
          · simp only [hr, if_true]
            have := invAfter_flush none _ hmid
            cases hpr : read_stream none { st with sysStdout := none, is_switched := false } with
            | error e =>
              have h2 : flushStream none { st with sysStdout := none, is_switched := false } = .error e := hpr
              rw [h2] at this
              obtain ⟨er, st'⟩ := e; simpa [InvAfter] using this
            | ok v =>
              have h2 : flushStream none { st with sysStdout := none, is_switched := false } = .ok v := hpr
              rw [h2] at this
              obtain ⟨c, st'⟩ := v; simpa [InvAfter] using this
          · simp only [hr, if_false]
            by_cases hfp : f
            · simp only [hfp, if_true]
              have := invAfter_flush none { st with sysStdout := none, is_switched := false } hmid
              cases hpr : flushStream none { st with sysStdout := none, is_switched := false } with
              | error e =>
                obtain ⟨er, st'⟩ := e
                rw [hpr] at this
                simpa [InvAfter] using this
              | ok v =>
                obtain ⟨c, st'⟩ := v
                rw [hpr] at this
                simpa [InvAfter] using this
            · simp only [hfp, if_false]
              exact hmid
    · simp only [hsum, if_false]
      simpa [InvAfter] using h
  · have ho : st.sysStdout = none := by
      unfold RouteInv at h; simpa [hs] using h
    simp only [hs, ho, if_false, ite_true, Bool.false_eq_true]
    unfold InvAfter RouteInv
    simp

/-- C4: at every point between operations output is routed to exactly one
destination — `sys.stdout` is the active redirect buffer iff `is_switched`,
and the console iff not — and every public operation (`switch_stdout` with
any mode arguments, `save_stream`, `read_stream`, `print_stream`, and buffer
renewal) preserves this, whether it returns or raises. -/
theorem c4_single_routing_invariant (p r f : Bool) (nm snm : Option String)
    (name : String) (st : DS) (h : RouteInv st) :
    InvAfter (switch_stdout p r nm f st) ∧ RouteInv (save_stream name st) ∧
    InvAfter (read_stream snm st) ∧ InvAfter (print_stream snm st) ∧
    RouteInv (renewStream st) :=
  ⟨invAfter_switch p r f nm st h, routeInv_save st name h,
   invAfter_flush snm st h, invAfter_print snm st h, routeInv_renew st h⟩

/-- Sequencing of switch operations: a raised exception propagates. -/
def andThen {α β : Type} (x : Except (Err × DS) (α × DS))
    (f : α → DS → Except (Err × DS) (β × DS)) : Except (Err × DS) (β × DS) :=
  match x with
  | .error e => .error e
  | .ok (a, st') => f a st'

/-- The returned value of a sequence, `none` when an exception escaped. -/
def resultOf {α : Type} : Except (Err × DS) (α × DS) → Option α
  | .ok (a, _) => some a
  | .error _ => none

/-- The exception escaping a sequence, if any. -/
def errOf {α : Type} : Except (Err × DS) (α × DS) → Option Err
  | .ok _ => none
  | .error (e, _) => some e

/-- The final state of a sequence that returned normally. -/
def stateOf {α : Type} : Except (Err × DS) (α × DS) → Option DS
  | .ok (_, st') => some st'
  | .error _ => none

/-- Popping a key just inserted over a dict not containing it returns the
inserted value and the original dict. -/
theorem dictPop_insert_self (x : String) (v : Nat) (d : List (String × Nat))
    (h : ∀ q ∈ d, q.1 ≠ x) : dictPop x (dictInsert x v d) = some (v, d) := by
  induction d with
  | nil => simp [dictInsert, dictPop]
  | cons q rest ih =>
    obtain ⟨k, w⟩ := q
    have hk : k ≠ x := h (k, w) (by simp)
    simp [dictInsert, dictPop, hk, ih (fun p hp => h p (by simp [hp]))]

/-- Popping an absent key fails. -/
theorem dictPop_none (x : String) (d : List (String × Nat))
    (h : ∀ q ∈ d, q.1 ≠ x) : dictPop x d = none := by
  induction d with
  | nil => rfl
  | cons q rest ih =>
    obtain ⟨k, w⟩ := q
    have hk : k ≠ x := h (k, w) (by simp)
    simp [dictPop, hk, ih (fun p hp => h p (by simp [hp]))]

/-- Popping a key right after inserting it over a dict with pairwise
distinct keys (as in every Python dict) yields the inserted value, and a
second pop of the same key then fails: `dictInsert` overwrote any prior
entry under that key. -/
theorem dictPop_insert_of_nodup (x : String) (v : Nat) (d : List (String × Nat))
    (hnd : (d.map Prod.fst).Nodup) :
    ∃ d', dictPop x (dictInsert x v d) = some (v, d') ∧ dictPop x d' = none := by
  induction d with
  | nil => exact ⟨[], by simp [dictInsert, dictPop], rfl⟩
  | cons q rest ih =>
    obtain ⟨k, w⟩ := q
    simp only [List.map_cons, List.nodup_cons] at hnd
    by_cases hk : k = x
    · refine ⟨rest, by simp [dictInsert, dictPop, hk], ?_⟩
      refine dictPop_none x rest (fun q hq hqx => hnd.1 ?_)
      rw [hk, ← hqx]
      exact List.mem_map_of_mem Prod.fst hq
    · obtain ⟨d'', h1, h2⟩ := ih hnd.2
      exact ⟨(k, w) :: d'', by simp [dictInsert, dictPop, hk, h1],
        by simp [dictPop, hk, h2]⟩

/-- C5: from a resting state, entering capture, writing `s`, and exiting
with `read` returns exactly `s`; a subsequent enter/exit-read pair with no
intervening writes returns the empty string — the read hands back the full
accumulated text and leaves a fresh buffer behind. -/
theorem c5_capture_read_round_trip (s : String) (st : DS) (hg : Good st) :
    resultOf (andThen (switchPlain st) (fun _ st1 =>
      andThen (switchRead (writeStdout s st1)) (fun v1 st2 =>
        andThen (switchPlain st2) (fun _ st3 =>
          andThen (switchRead st3) (fun v2 st4 => .ok ((v1, v2), st4))))))
      = some (.str s, .str "") := by
  obtain ⟨h1, h2, h3, h4⟩ := hg
  rw [switchPlain_enter st h1 h2]
  simp only [andThen]
  rw [writeStdout_diverted s _ rfl, switchRead_exit _ rfl rfl]
  simp only [andThen]
  rw [switchPlain_enter _ rfl rfl]
  simp only [andThen]
  rw [switchRead_exit _ rfl rfl]
  simp only [andThen, resultOf]
  simp [h3]

/-- C9 (amended): for every NON-EMPTY name `x` and every string `s`:
capturing `s` and exiting with `saveAs(x)` — which overwrites any prior
entry under `x` — then reading the saved stream `x`, returns exactly `s`;
a second `readSaved(x)` with no intervening save under `x` raises
`KeyError`, because reading a saved buffer pops its entry. The only
side condition is the dict representation invariant that saved names are
pairwise distinct, which every Python dict satisfies. -/
theorem c9_amended_saved_round_trip (x s : String) (hx : x ≠ "") (st : DS) (hg : Good st)
    (hnd : (st.saved_streams.map Prod.fst).Nodup) :
    resultOf (andThen (switchPlain st) (fun _ st1 =>
      andThen (switchSave x (writeStdout s st1)) (fun _ st2 =>
        read_stream (some x) st2)))
      = some s ∧
    errOf (andThen (switchPlain st) (fun _ st1 =>
      andThen (switchSave x (writeStdout s st1)) (fun _ st2 =>
        andThen (read_stream (some x) st2) (fun v1 st3 =>
          read_stream (some x) st3))))
      = some .keyError := by
  obtain ⟨h1, h2, h3, h4⟩ := hg
  have hid : st.redir ≠ st.nBufs := Nat.ne_of_lt h4
  have hcond : pyTruthy (some x) = true := by simp [pyTruthy, hx]
  obtain ⟨d', hp1, hp2⟩ := dictPop_insert_of_nodup x st.redir st.saved_streams hnd
  constructor
  · rw [switchPlain_enter st h1 h2]
    simp only [andThen]
    rw [writeStdout_diverted s _ rfl, switchSave_exit x hx _ rfl rfl]
    simp only [andThen, read_stream, flushStream]
    rw [if_pos hcond, show (some x).getD "" = x from rfl]
    rw [hp1]
    simp [resultOf, Function.update_noteq hid, h3]
  · rw [switchPlain_enter st h1 h2]
    simp only [andThen]
    rw [writeStdout_diverted s _ rfl, switchSave_exit x hx _ rfl rfl]
    simp only [andThen, read_stream, flushStream]
    rw [if_pos hcond, show (some x).getD "" = x from rfl]
    rw [hp1]
    simp only [andThen]
    rw [hp2]
    simp [errOf, hcond]

/-- C10: a mode-less `switch()` while diverted restores console routing but
preserves the active buffer; a second mode-less `switch()` re-enters capture
on that same buffer, so writing `s`, pausing, resuming, writing `t`, and
exiting with `read` returns `s ++ t`. -/
theorem c10_pause_resume_appends (s t : String) (st : DS) (hg : Good st) :
    resultOf (andThen (switchPlain st) (fun _ st1 =>
      andThen (switchPlain (writeStdout s st1)) (fun _ st2 =>
        andThen (switchPlain st2) (fun _ st3 =>
          andThen (switchRead (writeStdout t st3)) (fun v st4 =>
            .ok (v, st4))))))
      = some (.str (s ++ t)) ∧
    (stateOf (andThen (switchPlain st) (fun _ st1 =>
      switchPlain (writeStdout s st1)))).map
        (fun st2 => (st2.is_switched, st2.sysStdout, st2.redir))
      = some (false, none, st.redir) := by
  obtain ⟨h1, h2, h3, h4⟩ := hg
  constructor
  · rw [switchPlain_enter st h1 h2]
    simp only [andThen]
    rw [writeStdout_diverted s _ rfl, switchPlain_exit _ rfl rfl]
    simp only [andThen]
    rw [switchPlain_enter _ rfl rfl]
    simp only [andThen]
    rw [writeStdout_diverted t _ rfl, switchRead_exit _ rfl rfl]
    simp only [andThen, resultOf]
    simp [h3, String.append_assoc]
  · rw [switchPlain_enter st h1 h2]
    simp only [andThen]
    rw [writeStdout_diverted s _ rfl, switchPlain_exit _ rfl rfl]
    simp [stateOf]

/-- C7 counterexample: calling the switch with `read_stream=True` (an
exitCapture request) while un-diverted does not fail — from the initial
state it silently ENTERS capture, ignoring the mode argument; and a
mode-less call (an enterCapture request) while diverted silently exits back
to the console. Neither direction raises an assertion error. -/
theorem c7_counterexample_silent_toggle :
    switch_stdout false true none false DS.init =
      .ok (.stream (some 0),
        { DS.init with sysStdout := some 0, is_switched := true }) ∧
    switch_stdout false false none false
        { DS.init with sysStdout := some 0, is_switched := true } =
      .ok (.stream none, DS.init) := ⟨rfl, rfl⟩

/-- C7 (amended): a switch call while un-diverted — whatever the mode
arguments — silently enters capture, never consulting them; a mode-less
call while diverted silently exits to the console, preserving the buffer.
Neither out-of-order call fails fast. -/
theorem c7_amended_no_fail_fast (p r f : Bool) (nm : Option String) (st : DS)
    (h1 : st.is_switched = false) (h2 : st.sysStdout = none) :
    switch_stdout p r nm f st =
      .ok (.stream (some st.redir),
        { st with sysStdout := some st.redir, is_switched := true }) ∧
    (∀ st' : DS, st'.is_switched = true → st'.sysStdout = some st'.redir →
      switch_stdout false false none false st' =
        .ok (.stream none, { st' with sysStdout := none, is_switched := false })) := by
  constructor
  · simp [switch_stdout, h1, h2]
  · exact fun st' hs ho => switchPlain_exit st' hs ho

/-- C6 counterexample: line 90 (`format_exception(...)[2:]`) removes the
header line plus ONE frame, not "exactly the outermost two frames": on an
exception whose traceback has two frames the two computations differ. -/
theorem c6_counterexample_not_two_frames :
    harnessTraceback ["  File f1\n", "  File f2\n"] "Err: boom\n" ≠
      specTraceback ["  File f1\n", "  File f2\n"] "Err: boom\n" := by decide

/-- C6 (amended): the record's traceback content is the formatted exception
with its first two ENTRIES removed — the
`"Traceback (most recent call last):"` header and the outermost single
frame; since the harness contributes exactly one invocation frame
(`getattr(test_class, test)()`), what remains is the test-body frames
followed by the exception line. -/
theorem c6_amended_drop_header_and_one_frame (hf : String)
    (bodyFrames : List String) (excLine : String) :
    harnessTraceback (hf :: bodyFrames) excLine = bodyFrames ++ [excLine] := by
  simp [harnessTraceback, pyFormatException]

/-- C8 (code bug): `print_stream` runs
`cls.original_stdout.write(content, end='')`, but `write` accepts no `end`
keyword, so every print-mode exit raises `TypeError` after the buffer has
already been flushed, and nothing is written to the console: here a capture
holding `"abc"` is exited with `print_stream=True`, the call raises
`TypeError`, the error state's console is empty and its buffer renewed; the
same happens when printing a saved stream directly. -/
theorem c8_print_stream_raises_typeError :
    switch_stdout true false none false
        (writeStdout "abc"
          { DS.init with sysStdout := some 0, is_switched := true }) =
      .error (.typeError,
        { DS.init with
            bufs := Function.update (Function.update DS.init.bufs 0 "abc") 1 "",
            nBufs := 2, redir := 1 }) ∧
    print_stream (some "x")
        { DS.init with
            saved_streams := [("x", 0)],
            bufs := Function.update DS.init.bufs 0 "abc" } =
      .error (.typeError,
        { DS.init with bufs := Function.update DS.init.bufs 0 "abc" }) :=
  ⟨rfl, rfl⟩

/-- C9 counterexample: with the empty name, `saveAs("")` silently saves
nothing (Python `if save_stream_as:` is falsy on `""`), the first
`readSaved("")` reads the still-active buffer, and a second `readSaved("")`
returns `""` successfully instead of failing with `KeyError`. -/
theorem c9_counterexample_empty_name :
    switchSave "" (writeStdout "abc"
        { DS.init with sysStdout := some 0, is_switched := true }) =
      .ok (.stream none,
        { DS.init with bufs := Function.update DS.init.bufs 0 "abc" }) ∧
    read_stream (some "")
        { DS.init with bufs := Function.update DS.init.bufs 0 "abc" } =
      .ok ("abc",
        { DS.init with
            bufs := Function.update (Function.update DS.init.bufs 0 "abc") 1 "",
            nBufs := 2, redir := 1 }) ∧
    read_stream (some "")
        { DS.init with
            bufs := Function.update (Function.update DS.init.bufs 0 "abc") 1 "",
            nBufs := 2, redir := 1 } =
      .ok ("",
        { DS.init with
            bufs := Function.update
              (Function.update (Function.update DS.init.bufs 0 "abc") 1 "") 2 "",
            nBufs := 3, redir := 2 }) := ⟨rfl, rfl, rfl⟩

/-! ## Concrete witnesses -/

/-- A module whose discovered units (module-level `test_a`, class unit
`test_m` of `TestC`) all pass; the `helper` unit and the `Helper` class are
not discovered. -/
def mAllPass : PyModule :=
  { name := "mod"
    units := [⟨"test_a", "hi", none, []⟩, ⟨"helper", "", some "E\n", []⟩]
    testClasses := [("TestC", [⟨"test_m", "", none, []⟩]),
                    ("Helper", [⟨"test_z", "", some "E\n", []⟩])] }

/-- A module whose only module-level test passes while the first raiser is
a class unit of `TestC`, followed by a further (never started) class unit. -/
def mClassFail : PyModule :=
  { name := "mod"
    units := [⟨"test_a", "hi", none, []⟩]
    testClasses := [("TestC",
      [⟨"test_k", "o", some "KE\n", ["  f\n"]⟩,
       ⟨"test_z", "", none, []⟩])] }

/-- A module with a passing `test_a` and a raising `test_b`. -/
def mMixed : PyModule :=
  { name := "mod"
    units := [⟨"test_a", "hi", none, []⟩,
              ⟨"test_b", "out", some "ValueError: boom\n",
                ["  File t, line 3, in test_b\n"]⟩]
    testClasses := [] }

theorem c1_witness :
    Good DS.init ∧ (∀ u ∈ discoveredUnits [] mAllPass, u.raises = none) ∧
    (∃ res st', run_tests false [] mAllPass DS.init = .finished res st' ∧
      res.testcount = (discoveredUnits [] mAllPass).length ∧
      res.failcount = 0 ∧ res.failed_tests = [] ∧
      (∃ pre, st'.console = pre ++ print_test_summary res) ∧
      print_test_summary res =
        "\nTesting complete. Out of " ++ toString res.testcount ++ " tests:\n"
          ++ GREEN ++ rjust 5 (toString res.testcount) ++ ENDC ++ " succeeded\n"
          ++ RED ++ rjust 5 "0" ++ ENDC ++ " failed\n") :=
  ⟨by decide, by decide,
   c1_zero_failures_counts_and_summary mAllPass [] false DS.init (by decide)
     (by decide)⟩

theorem c2_witness :
    Good DS.init ∧
    (∃ res st', run_tests false [] mMixed DS.init = .finished res st' ∧
      res.testcount = (discoveredUnits [] mMixed).length ∧
      res.failcount
        = ((discoveredUnits [] mMixed).filter (fun u => u.raises.isSome)).length ∧
      res.failed_tests = (discoveredUnits [] mMixed).filterMap
        (fun u => u.raises.map (fun e => failureRecordOf u e))) :=
  ⟨by decide, c2_accumulate_exact_failures mMixed [] DS.init (by decide)⟩

theorem c3_witness :
    Good DS.init ∧
    discoveredUnits [] mClassFail = [⟨"test_a", "hi", none, []⟩] ++
      (⟨"test_k", "o", some "KE\n", ["  f\n"]⟩ : TestUnit)
        :: [⟨"test_z", "", none, []⟩] ∧
    (∀ u ∈ [(⟨"test_a", "hi", none, []⟩ : TestUnit)], u.raises = none) ∧
    (⟨"test_k", "o", some "KE\n", ["  f\n"]⟩ : TestUnit).raises
      = some "KE\n" ∧
    (∃ res st', run_tests true [] mClassFail DS.init
        = .raised "KE\n" res st' ∧
      res.testcount = [(⟨"test_a", "hi", none, []⟩ : TestUnit)].length + 1 ∧
      res.failcount = 1 ∧
      res.failed_tests = [failureRecordOf
        ⟨"test_k", "o", some "KE\n", ["  f\n"]⟩ "KE\n"]) :=
  ⟨by decide, by decide, by decide, by decide,
   c3_fail_fast_propagates mClassFail [] DS.init
     [⟨"test_a", "hi", none, []⟩] [⟨"test_z", "", none, []⟩]
     ⟨"test_k", "o", some "KE\n", ["  f\n"]⟩ "KE\n"
     (by decide) (by decide) (by decide) (by decide)⟩

theorem c4_witness :
    RouteInv DS.init ∧
    (InvAfter (switch_stdout true false (some "x") false DS.init) ∧
     RouteInv (save_stream "n" DS.init) ∧
     InvAfter (read_stream (some "y") DS.init) ∧
     InvAfter (print_stream none DS.init) ∧
     RouteInv (renewStream DS.init)) :=
  ⟨by decide,
   c4_single_routing_invariant true false false (some "x") (some "y") "n"
     DS.init (by decide)⟩

theorem c5_witness :
    Good DS.init ∧
    resultOf (andThen (switchPlain DS.init) (fun _ st1 =>
      andThen (switchRead (writeStdout "abc" st1)) (fun v1 st2 =>
        andThen (switchPlain st2) (fun _ st3 =>
          andThen (switchRead st3) (fun v2 st4 => .ok ((v1, v2), st4))))))
      = some (.str "abc", .str "") :=
  ⟨by decide, c5_capture_read_round_trip "abc" DS.init (by decide)⟩

theorem c7_witness :
    DS.init.is_switched = false ∧ DS.init.sysStdout = none ∧
    (switch_stdout false true none false DS.init =
      .ok (.stream (some 0),
        { DS.init with sysStdout := some 0, is_switched := true }) ∧
    (∀ st' : DS, st'.is_switched = true → st'.sysStdout = some st'.redir →
      switch_stdout false false none false st' =
        .ok (.stream none, { st' with sysStdout := none, is_switched := false }))) :=
  ⟨rfl, rfl, c7_amended_no_fail_fast false true false none DS.init rfl rfl⟩

theorem c9_witness :
    ("x" : String) ≠ "" ∧ Good DS.init ∧
    (DS.init.saved_streams.map Prod.fst).Nodup ∧
    (resultOf (andThen (switchPlain DS.init) (fun _ st1 =>
      andThen (switchSave "x" (writeStdout "abc" st1)) (fun _ st2 =>
        read_stream (some "x") st2)))
      = some "abc" ∧
    errOf (andThen (switchPlain DS.init) (fun _ st1 =>
      andThen (switchSave "x" (writeStdout "abc" st1)) (fun _ st2 =>
        andThen (read_stream (some "x") st2) (fun v1 st3 =>
          read_stream (some "x") st3))))
      = some .keyError) :=
  ⟨by decide, by decide, by decide,
   c9_amended_saved_round_trip "x" "abc" (by decide) DS.init (by decide)
     (by decide)⟩

theorem c10_witness :
    Good DS.init ∧
    (resultOf (andThen (switchPlain DS.init) (fun _ st1 =>
      andThen (switchPlain (writeStdout "ab" st1)) (fun _ st2 =>
        andThen (switchPlain st2) (fun _ st3 =>
          andThen (switchRead (writeStdout "cd" st3)) (fun v st4 =>
            .ok (v, st4))))))
      = some (.str ("ab" ++ "cd")) ∧
    (stateOf (andThen (switchPlain DS.init) (fun _ st1 =>
      switchPlain (writeStdout "ab" st1)))).map
        (fun st2 => (st2.is_switched, st2.sysStdout, st2.redir))
      = some (false, none, DS.init.redir)) :=
  ⟨by decide, c10_pause_resume_appends "ab" "cd" DS.init (by decide)⟩
